import Mathlib

/-!
Verification of `file_type_enum` (marcospb19/file_type_enum).

Shallow embedding of `src/lib.rs`, `src/mode_t_conversion_feature.rs` and
the platform mode-bit constants used by the crate's `libc`-based adapter.
`mode_t` values are modelled as `Nat`; every constant fits well below any
overflow boundary, and the Rust code performs no arithmetic on them, only
equality matching, so no modular reduction is needed.  A Rust `panic!` /
`unreachable!` is modelled as `Option.none`; `io::Result` is modelled as
`Except ε` with an abstract error type `ε` (the code never inspects the
error, it only propagates it with `?`).
-/

namespace FileTypeEnum

/-- The enum `FileType` from `src/lib.rs` in its unix shape (all seven
variants present, in declaration order). -/
inductive FileType where
  | Regular
  | Directory
  | Symlink
  | BlockDevice
  | CharDevice
  | Fifo
  | Socket
deriving DecidableEq, Repr, Fintype

/-- The enum `FileType` from `src/lib.rs` in its non-unix shape (the three
universal variants only, in declaration order), as produced by the
`#[cfg(unix)]` attributes on the last four variants. -/
inductive FileTypeNonUnix where
  | Regular
  | Directory
  | Symlink
deriving DecidableEq, Repr, Fintype

/-! ### Platform mode-bit constants

The authoritative POSIX / Linux `<sys/stat.h>` values re-exported by the
`libc` crate (`mode_t` is `u32` on Linux; the type field is the octal
values below). -/

def S_IFIFO : Nat := 0o010000
def S_IFCHR : Nat := 0o020000
def S_IFDIR : Nat := 0o040000
def S_IFBLK : Nat := 0o060000
def S_IFREG : Nat := 0o100000
def S_IFLNK : Nat := 0o120000
def S_IFSOCK : Nat := 0o140000

/-! ### `src/mode_t_conversion_feature.rs` -/

/-- `FileType::bits` from `src/mode_t_conversion_feature.rs` (lines 20-33):
the tag-to-`mode_t` table exactly as written in the source. -/
def FileType.bits : FileType → Nat
  | .Regular => S_IFREG
  | .Directory => S_IFDIR
  | .Symlink => S_IFCHR
  | .BlockDevice => S_IFBLK
  | .CharDevice => S_IFIFO
  | .Fifo => S_IFLNK
  | .Socket => S_IFSOCK

/-- `impl From<mode_t> for FileType` from `src/mode_t_conversion_feature.rs`
(lines 5-18).  The `_ => unreachable!()` arm is modelled as `none`. -/
def fileTypeFromModeT (bits : Nat) : Option FileType :=
  if bits = S_IFREG then some .Regular
  else if bits = S_IFDIR then some .Directory
  else if bits = S_IFCHR then some .Symlink
  else if bits = S_IFBLK then some .BlockDevice
  else if bits = S_IFIFO then some .CharDevice
  else if bits = S_IFLNK then some .Fifo
  else if bits = S_IFSOCK then some .Socket
  else none

/-- `impl From<FileType> for mode_t` from `src/mode_t_conversion_feature.rs`
(lines 35-39): it just calls `bits`. -/
def modeTFromFileType (ft : FileType) : Nat := ft.bits

/-! ### The feature-gated copy embedded in `src/lib.rs` (lines 282-315)

Embedded separately so the two copies can be compared (they are gated by
`#[cfg(feature = "mode-t-conversion")]` in `lib.rs`). -/

namespace LibGated

/-- `FileType::bits` as written inside `src/lib.rs` (feature-gated copy). -/
def bits : FileType → Nat
  | .Regular => S_IFREG
  | .Directory => S_IFDIR
  | .Symlink => S_IFCHR
  | .BlockDevice => S_IFBLK
  | .CharDevice => S_IFIFO
  | .Fifo => S_IFLNK
  | .Socket => S_IFSOCK

/-- `impl From<mode_t> for FileType` as written inside `src/lib.rs`
(feature-gated copy); `unreachable!()` modelled as `none`. -/
def fromModeT (bits : Nat) : Option FileType :=
  if bits = S_IFREG then some .Regular
  else if bits = S_IFDIR then some .Directory
  else if bits = S_IFCHR then some .Symlink
  else if bits = S_IFBLK then some .BlockDevice
  else if bits = S_IFIFO then some .CharDevice
  else if bits = S_IFLNK then some .Fifo
  else if bits = S_IFSOCK then some .Socket
  else none

end LibGated

/-! ### `std::fs::FileType` and the classifier from `src/lib.rs` -/

/-- A platform type descriptor (`std::fs::FileType` on unix): one boolean
predicate per recognized category, exactly the queries the source calls. -/
structure FsFileType where
  is_file : Bool
  is_dir : Bool
  is_symlink : Bool
  is_block_device : Bool
  is_char_device : Bool
  is_fifo : Bool
  is_socket : Bool
deriving DecidableEq, Repr

/-- `impl From<fs::FileType> for FileType` from `src/lib.rs` (lines
219-258), unix branch: the if-else chain in source order, with the
`unreachable!` arm modelled as `none`. -/
def fileTypeFromFs (ft : FsFileType) : Option FileType :=
  if ft.is_file then some .Regular
  else if ft.is_dir then some .Directory
  else if ft.is_symlink then some .Symlink
  else if ft.is_block_device then some .BlockDevice
  else if ft.is_char_device then some .CharDevice
  else if ft.is_fifo then some .Fifo
  else if ft.is_socket then some .Socket
  else none

/-- `FileType::from_path` from `src/lib.rs` (lines 155-159).  The filesystem
is abstracted by its effect: `metadataResult` is the outcome of
`fs::metadata(path)` (followed by `.file_type()`).  The `?` operator
propagates the error; on `Ok` the classify-from-metadata conversion runs
and may panic (`none`). -/
def from_path {ε : Type} (metadataResult : Except ε FsFileType) :
    Option (Except ε FileType) :=
  match metadataResult with
  | .error e => some (.error e)
  | .ok ft => (fileTypeFromFs ft).map .ok

/-- `FileType::from_symlink_path` from `src/lib.rs` (lines 180-184); same
shape as `from_path` but fed by `fs::symlink_metadata(path)`. -/
def from_symlink_path {ε : Type} (metadataResult : Except ε FsFileType) :
    Option (Except ε FileType) :=
  match metadataResult with
  | .error e => some (.error e)
  | .ok ft => (fileTypeFromFs ft).map .ok

/-! ### Per-tag predicates, `src/lib.rs` lines 186-216 -/

def FileType.is_regular : FileType → Bool
  | .Regular => true
  | _ => false

def FileType.is_directory : FileType → Bool
  | .Directory => true
  | _ => false

def FileType.is_symlink : FileType → Bool
  | .Symlink => true
  | _ => false

def FileType.is_block_device : FileType → Bool
  | .BlockDevice => true
  | _ => false

def FileType.is_char_device : FileType → Bool
  | .CharDevice => true
  | _ => false

def FileType.is_fifo : FileType → Bool
  | .Fifo => true
  | _ => false

def FileType.is_socket : FileType → Bool
  | .Socket => true
  | _ => false

/-! ### Display, `src/lib.rs` lines 264-277 -/

/-- `impl fmt::Display for FileType` (unix shape): the fixed phrase written
to the formatter for each tag. -/
def FileType.display : FileType → String
  | .Regular => "regular file"
  | .Directory => "directory"
  | .Symlink => "symbolic link"
  | .BlockDevice => "block device"
  | .CharDevice => "char device"
  | .Fifo => "FIFO"
  | .Socket => "socket"

/-! ### Derived Eq / Ord / Hash, `src/lib.rs` line 123

Rust's `derive(PartialEq, Eq, PartialOrd, Ord, Hash)` on a fieldless enum
compares / hashes the discriminant (variant index in declaration order). -/

/-- Variant discriminant of the unix-shape enum, in declaration order. -/
def FileType.discriminant : FileType → Nat
  | .Regular => 0
  | .Directory => 1
  | .Symlink => 2
  | .BlockDevice => 3
  | .CharDevice => 4
  | .Fifo => 5
  | .Socket => 6

/-- Derived `PartialEq`/`Eq`: same variant, i.e. equal discriminants. -/
def FileType.eqb (a b : FileType) : Bool := a.discriminant == b.discriminant

/-- Derived `Ord::cmp`: compare discriminants. -/
def FileType.cmp (a b : FileType) : Ordering :=
  compare a.discriminant b.discriminant

/-- Derived `Hash`: the hasher is fed the discriminant, so the hash input
is a function of the discriminant alone. -/
def FileType.hashInput (a : FileType) : Nat := a.discriminant

/-- Variant discriminant of the non-unix-shape enum, in declaration order. -/
def FileTypeNonUnix.discriminant : FileTypeNonUnix → Nat
  | .Regular => 0
  | .Directory => 1
  | .Symlink => 2

/-- Derived `Ord::cmp` for the non-unix shape. -/
def FileTypeNonUnix.cmp (a b : FileTypeNonUnix) : Ordering :=
  compare a.discriminant b.discriminant

/-! ### Helper lemmas -/

/-- The if-else chain of the fs-to-enum conversion only produces `Symlink`
when the symlink predicate holds. -/
theorem fileTypeFromFs_eq_symlink (ft : FsFileType)
    (h : fileTypeFromFs ft = some FileType.Symlink) : ft.is_symlink = true := by
  rcases ft with ⟨f, d, s, b, c, p, k⟩
  cases f <;> cases d <;> cases s <;> cases b <;> cases c <;> cases p <;>
    cases k <;> revert h <;> decide

/-! ### Claims -/

/-- C1: the claim says `bits` maps every tag to the constant of that tag's
documented meaning (`Symlink` to `S_IFLNK`, `CharDevice` to `S_IFCHR`,
`Fifo` to `S_IFIFO`) and `From<mode_t>` inverts that.  The code instead
maps `Symlink` to `S_IFCHR`, `CharDevice` to `S_IFIFO`, `Fifo` to
`S_IFLNK`, and `From<mode_t>` sends `S_IFCHR` to `Symlink`: the table is
scrambled relative to the constants' documented meanings, contradicting
the method's own doc comment. -/
theorem C1_mode_bits_mismatch :
    FileType.bits .Symlink = S_IFCHR ∧
    FileType.bits .CharDevice = S_IFIFO ∧
    FileType.bits .Fifo = S_IFLNK ∧
    modeTFromFileType .Symlink = S_IFCHR ∧
    FileType.bits .Symlink ≠ S_IFLNK ∧
    FileType.bits .CharDevice ≠ S_IFCHR ∧
    FileType.bits .Fifo ≠ S_IFIFO ∧
    fileTypeFromModeT S_IFLNK = some FileType.Fifo ∧
    fileTypeFromModeT S_IFLNK ≠ some FileType.Symlink ∧
    fileTypeFromModeT S_IFCHR = some FileType.Symlink := by
  decide

/-- C2: `bits` is total on the seven tags and is the exact inverse of the
`From<mode_t>` conversion on the recognized domain: tag-to-bits-to-tag is
the identity on every tag, and bits-to-tag-to-bits is the identity on each
of the seven recognized constants. -/
theorem C2_roundtrip :
    (∀ t : FileType, fileTypeFromModeT t.bits = some t) ∧
    (fileTypeFromModeT S_IFREG).map FileType.bits = some S_IFREG ∧
    (fileTypeFromModeT S_IFDIR).map FileType.bits = some S_IFDIR ∧
    (fileTypeFromModeT S_IFCHR).map FileType.bits = some S_IFCHR ∧
    (fileTypeFromModeT S_IFBLK).map FileType.bits = some S_IFBLK ∧
    (fileTypeFromModeT S_IFIFO).map FileType.bits = some S_IFIFO ∧
    (fileTypeFromModeT S_IFLNK).map FileType.bits = some S_IFLNK ∧
    (fileTypeFromModeT S_IFSOCK).map FileType.bits = some S_IFSOCK := by
  decide

/-- C3: whenever `from_path` succeeds with some tag, and the metadata
descriptor it read (obtained with symlinks followed) does not satisfy the
symlink predicate — the platform guarantee for `fs::metadata` — that tag
is not `Symlink`. -/
theorem C3_from_path_never_symlink (ε : Type) (m : Except ε FsFileType)
    (t : FileType)
    (hfollow : ∀ ft, m = Except.ok ft → ft.is_symlink = false)
    (hsucc : from_path m = some (Except.ok t)) :
    t ≠ FileType.Symlink := by
  intro hT
  subst hT
  match m with
  | .error e => simp [from_path] at hsucc
  | .ok ft =>
      have hs : ft.is_symlink = false := hfollow ft rfl
      have h2 : fileTypeFromFs ft = some FileType.Symlink := by
        rcases hx : fileTypeFromFs ft with _ | u
        · simp [from_path, hx] at hsucc
        · simp [from_path, hx] at hsucc
          rw [hsucc]
      rw [fileTypeFromFs_eq_symlink ft h2] at hs
      exact Bool.noConfusion hs

/-- Witness for C3 at a concrete input: metadata of a plain regular
file. -/
theorem C3_witness :
    from_path ((Except.ok ⟨true, false, false, false, false, false, false⟩ :
        Except Unit FsFileType)) = some (Except.ok FileType.Regular) ∧
    FileType.Regular ≠ FileType.Symlink := by
  refine ⟨rfl, C3_from_path_never_symlink Unit
    (Except.ok ⟨true, false, false, false, false, false, false⟩)
    FileType.Regular ?_ rfl⟩
  intro ft h
  cases h
  rfl

/-- C4: the classify-from-metadata conversion checks the predicates in the
fixed source order (regular, directory, symlink, block device, char
device, FIFO, socket) and returns the tag of the first predicate that
holds; if at least one predicate holds it returns some tag, and when
exactly one holds (the characterizations below with all earlier
predicates false) that tag is the one mapped to that predicate. -/
theorem C4_fromFs_priority (ft : FsFileType) :
    (fileTypeFromFs ft = some FileType.Regular ↔ ft.is_file = true) ∧
    (fileTypeFromFs ft = some FileType.Directory ↔
      ft.is_file = false ∧ ft.is_dir = true) ∧
    (fileTypeFromFs ft = some FileType.Symlink ↔
      ft.is_file = false ∧ ft.is_dir = false ∧ ft.is_symlink = true) ∧
    (fileTypeFromFs ft = some FileType.BlockDevice ↔
      ft.is_file = false ∧ ft.is_dir = false ∧ ft.is_symlink = false ∧
      ft.is_block_device = true) ∧
    (fileTypeFromFs ft = some FileType.CharDevice ↔
      ft.is_file = false ∧ ft.is_dir = false ∧ ft.is_symlink = false ∧
      ft.is_block_device = false ∧ ft.is_char_device = true) ∧
    (fileTypeFromFs ft = some FileType.Fifo ↔
      ft.is_file = false ∧ ft.is_dir = false ∧ ft.is_symlink = false ∧
      ft.is_block_device = false ∧ ft.is_char_device = false ∧
      ft.is_fifo = true) ∧
    (fileTypeFromFs ft = some FileType.Socket ↔
      ft.is_file = false ∧ ft.is_dir = false ∧ ft.is_symlink = false ∧
      ft.is_block_device = false ∧ ft.is_char_device = false ∧
      ft.is_fifo = false ∧ ft.is_socket = true) ∧
    ((ft.is_file || ft.is_dir || ft.is_symlink || ft.is_block_device ||
        ft.is_char_device || ft.is_fifo || ft.is_socket) = true →
      ∃ u, fileTypeFromFs ft = some u) := by
  rcases ft with ⟨f, d, s, b, c, p, k⟩
  cases f <;> cases d <;> cases s <;> cases b <;> cases c <;> cases p <;>
    cases k <;> decide

/-- Witness for C4 at a concrete input: a descriptor where only the
directory predicate holds classifies as `Directory`. -/
theorem C4_witness :
    fileTypeFromFs ⟨false, true, false, false, false, false, false⟩ =
      some FileType.Directory :=
  (C4_fromFs_priority ⟨false, true, false, false, false, false, false⟩).2.1.mpr
    ⟨rfl, rfl⟩

/-- C5: when no recognized predicate holds on the metadata descriptor, and
when a numeric mode value is none of the seven known constants, the
conversions hit their `unreachable!` arm (modelled `none`): no tag and no
typed error value is produced. -/
theorem C5_unrecognized_is_fatal (ft : FsFileType) (c : Nat)
    (hft : ft.is_file = false ∧ ft.is_dir = false ∧ ft.is_symlink = false ∧
      ft.is_block_device = false ∧ ft.is_char_device = false ∧
      ft.is_fifo = false ∧ ft.is_socket = false)
    (hc : c ≠ S_IFREG ∧ c ≠ S_IFDIR ∧ c ≠ S_IFCHR ∧ c ≠ S_IFBLK ∧
      c ≠ S_IFIFO ∧ c ≠ S_IFLNK ∧ c ≠ S_IFSOCK) :
    fileTypeFromFs ft = none ∧ fileTypeFromModeT c = none := by
  obtain ⟨h1, h2, h3, h4, h5, h6, h7⟩ := hft
  obtain ⟨g1, g2, g3, g4, g5, g6, g7⟩ := hc
  constructor
  · simp [fileTypeFromFs, h1, h2, h3, h4, h5, h6, h7]
  · simp [fileTypeFromModeT, g1, g2, g3, g4, g5, g6, g7]

/-- Witness for C5 at a concrete input: the all-false descriptor and the
mode value 0. -/
theorem C5_witness :
    fileTypeFromFs ⟨false, false, false, false, false, false, false⟩ = none ∧
      fileTypeFromModeT 0 = none :=
  C5_unrecognized_is_fatal ⟨false, false, false, false, false, false, false⟩ 0
    ⟨rfl, rfl, rfl, rfl, rfl, rfl, rfl⟩ (by decide)

/-- C6: both path lookups return a typed error value exactly when the
metadata read fails, and they propagate that failure unchanged; when the
metadata read succeeds, any returned value is a tag (never an error). -/
theorem C6_io_error_propagation (ε : Type) (m : Except ε FsFileType) (e : ε) :
    (from_path m = some (Except.error e) ↔ m = Except.error e) ∧
    (from_symlink_path m = some (Except.error e) ↔ m = Except.error e) ∧
    (∀ ft r, m = Except.ok ft → from_path m = some r →
      ∃ t, r = Except.ok t) ∧
    (∀ ft r, m = Except.ok ft → from_symlink_path m = some r →
      ∃ t, r = Except.ok t) := by
  cases m with
  | error e0 =>
      refine ⟨by simp [from_path], by simp [from_symlink_path], ?_, ?_⟩ <;>
        exact fun ft r hm hr => absurd hm (by simp)
  | ok ft =>
      rcases h : fileTypeFromFs ft with _ | u
      · refine ⟨by simp [from_path, h], by simp [from_symlink_path, h],
          ?_, ?_⟩ <;>
          · intro ft2 r hm hr
            simp [from_path, from_symlink_path, h] at hr
      · refine ⟨by simp [from_path, h], by simp [from_symlink_path, h],
          ?_, ?_⟩ <;>
          · intro ft2 r hm hr
            simp [from_path, from_symlink_path, h] at hr
            exact ⟨u, hr.symm⟩

/-- Witness for C6 at a concrete input: a failed metadata read is
propagated as the same error value. -/
theorem C6_witness :
    from_path (Except.error () : Except Unit FsFileType) =
      some (Except.error ()) :=
  (C6_io_error_propagation Unit (Except.error ()) ()).1.mpr rfl

/-- C7: each per-tag predicate returns `true` exactly on its own tag, and
on every value exactly one of the seven predicates is true.  The
predicates are embedded as pure `Bool`-valued functions of the tag, which
also captures that they perform no I/O and do not modify their
argument. -/
theorem C7_predicates (t : FileType) :
    (t.is_regular = true ↔ t = FileType.Regular) ∧
    (t.is_directory = true ↔ t = FileType.Directory) ∧
    (t.is_symlink = true ↔ t = FileType.Symlink) ∧
    (t.is_block_device = true ↔ t = FileType.BlockDevice) ∧
    (t.is_char_device = true ↔ t = FileType.CharDevice) ∧
    (t.is_fifo = true ↔ t = FileType.Fifo) ∧
    (t.is_socket = true ↔ t = FileType.Socket) ∧
    ((if t.is_regular then 1 else 0) + (if t.is_directory then 1 else 0) +
      (if t.is_symlink then 1 else 0) + (if t.is_block_device then 1 else 0) +
      (if t.is_char_device then 1 else 0) + (if t.is_fifo then 1 else 0) +
      (if t.is_socket then 1 else 0) = 1) := by
  cases t <;> decide

/-- C8: the rendering is a total function of the tag with the seven fixed
phrases, every rendering is non-empty, and equal tags render
identically. -/
theorem C8_display (t u : FileType) (h : t = u) :
    FileType.display .Regular = "regular file" ∧
    FileType.display .Directory = "directory" ∧
    FileType.display .Symlink = "symbolic link" ∧
    FileType.display .BlockDevice = "block device" ∧
    FileType.display .CharDevice = "char device" ∧
    FileType.display .Fifo = "FIFO" ∧
    FileType.display .Socket = "socket" ∧
    t.display ≠ "" ∧ t.display = u.display := by
  subst h
  cases t <;> decide

/-- Witness for C8 at a concrete input: the `Regular` tag. -/
theorem C8_witness :
    FileType.display .Regular = "regular file" ∧
    FileType.display .Directory = "directory" ∧
    FileType.display .Symlink = "symbolic link" ∧
    FileType.display .BlockDevice = "block device" ∧
    FileType.display .CharDevice = "char device" ∧
    FileType.display .Fifo = "FIFO" ∧
    FileType.display .Socket = "socket" ∧
    FileType.display FileType.Regular ≠ "" ∧
    FileType.display FileType.Regular = FileType.display FileType.Regular :=
  C8_display FileType.Regular FileType.Regular rfl

/-- C9: the derived equality decides propositional equality, the derived
order is a total order following declaration order on both platform
shapes of the enum, and the hash input is determined by the tag, so equal
tags hash equal. -/
theorem C9_eq_ord_hash :
    (∀ a b : FileType, FileType.eqb a b = true ↔ a = b) ∧
    (∀ a b : FileType, FileType.cmp a b = Ordering.eq ↔ a = b) ∧
    (∀ a b c : FileType, FileType.cmp a b = Ordering.lt →
      FileType.cmp b c = Ordering.lt → FileType.cmp a c = Ordering.lt) ∧
    (∀ a b : FileType, FileType.cmp a b = Ordering.lt ∨
      FileType.cmp a b = Ordering.eq ∨ FileType.cmp a b = Ordering.gt) ∧
    (∀ a b : FileType,
      FileType.cmp a b = Ordering.lt ↔ FileType.cmp b a = Ordering.gt) ∧
    (FileType.cmp .Regular .Directory = Ordering.lt ∧
      FileType.cmp .Directory .Symlink = Ordering.lt ∧
      FileType.cmp .Symlink .BlockDevice = Ordering.lt ∧
      FileType.cmp .BlockDevice .CharDevice = Ordering.lt ∧
      FileType.cmp .CharDevice .Fifo = Ordering.lt ∧
      FileType.cmp .Fifo .Socket = Ordering.lt) ∧
    (FileTypeNonUnix.cmp .Regular .Directory = Ordering.lt ∧
      FileTypeNonUnix.cmp .Directory .Symlink = Ordering.lt) ∧
    (∀ a b : FileType, a = b →
      FileType.hashInput a = FileType.hashInput b) := by
  refine ⟨by decide, by decide, by decide, by decide, by decide,
    by decide, by decide, ?_⟩
  intro a b h
  rw [h]

/-- Witness for C9 at a concrete input: transitivity applied along the
declaration chain. -/
theorem C9_witness : FileType.cmp .Regular .Symlink = Ordering.lt :=
  C9_eq_ord_hash.2.2.1 FileType.Regular FileType.Directory FileType.Symlink
    (by decide) (by decide)

/-- C10: the feature-gated conversion copy embedded in `lib.rs` and the
standalone module implement the same functions in both directions, on
every tag and on every numeric input. -/
theorem C10_feature_copies_agree :
    (∀ t : FileType, LibGated.bits t = FileType.bits t) ∧
    (∀ c : Nat, LibGated.fromModeT c = fileTypeFromModeT c) := by
  refine ⟨?_, fun c => rfl⟩
  intro t
  cases t <;> rfl

end FileTypeEnum
